import Mathlib

/-!
Shallow embedding of the Boom Summarizer API service (src/main.py).

The service exposes `POST /summarize`, which resolves an input (pasted text
or an uploaded `.txt` file) into a single effective text and produces a
`SummaryOut`, either through an outbound LLM call (when the `OPENAI_API_KEY`
environment variable is non-empty after stripping) or through a deterministic
heuristic extractor.  The outbound HTTP call, the `httpx` import and the
`json.loads` parse are external library behaviour, so they are modelled as
oracle parameters (`call`, `jp`); everything else — input validation, file
decoding, brace extraction, the heuristic extractor and the silent-fallback
control flow — is translated directly from the source.
-/

namespace Boom

/-- Python byte-level whitespace as recognised by `str.strip()` for the ASCII
range (space, tab, newline, carriage return, vertical tab, form feed). -/
def isPySpace (c : Char) : Bool :=
  decide (c = ' ' ∨ c = '\t' ∨ c = '\n' ∨ c = '\r' ∨ c = Char.ofNat 11 ∨ c = Char.ofNat 12)

/-- Model of Python `str.strip()`: drop leading and trailing whitespace. -/
def pyStrip (s : String) : String :=
  String.mk (((s.data.dropWhile isPySpace).reverse.dropWhile isPySpace).reverse)

/-- Model of Python `str.lower()` (ASCII case folding). -/
def pyLower (s : String) : String :=
  String.mk (s.data.map Char.toLower)

/-- Model of Python `s[:n]` on strings. -/
def pyTake (n : Nat) (s : String) : String :=
  String.mk (s.data.take n)

/-- Line-break characters recognised by Python `str.splitlines()`, other than
the carriage return (handled separately so that CRLF counts as one break). -/
def isLineBreak (c : Char) : Bool :=
  decide (c = '\n' ∨ c = Char.ofNat 11 ∨ c = Char.ofNat 12 ∨ c = Char.ofNat 28 ∨
    c = Char.ofNat 29 ∨ c = Char.ofNat 30 ∨ c = Char.ofNat 133 ∨
    c = Char.ofNat 8232 ∨ c = Char.ofNat 8233)

/-- Worker for `splitlines`: `acc` holds the current line, reversed. -/
def splitlinesGo : List Char → List Char → List String
  | acc, [] => if acc.isEmpty then [] else [String.mk acc.reverse]
  | acc, [c] =>
    if c == Char.ofNat 13 then [String.mk acc.reverse]
    else if isLineBreak c then [String.mk acc.reverse]
    else splitlinesGo (c :: acc) []
  | acc, c :: c2 :: rest =>
    if c == Char.ofNat 13 then
      if c2 == Char.ofNat 10 then String.mk acc.reverse :: splitlinesGo [] rest
      else String.mk acc.reverse :: splitlinesGo [] (c2 :: rest)
    else if isLineBreak c then String.mk acc.reverse :: splitlinesGo [] (c2 :: rest)
    else splitlinesGo (c :: acc) (c2 :: rest)

/-- Model of Python `str.splitlines()`: each line break terminates a line,
CRLF counts as a single break, and a trailing break opens no new line. -/
def splitlines (s : String) : List String :=
  splitlinesGo [] s.data

/-- The `lines` local of `heuristic_summarize`:
`[ln.strip() for ln in text.splitlines() if ln.strip()]`. -/
def pyLines (text : String) : List String :=
  (splitlines text).filterMap (fun ln =>
    let s := pyStrip ln
    if s == "" then none else some s)

/-- The response model of the service (`SummaryOut` in src/main.py). -/
structure SummaryOut where
  purpose : String
  insights : List String
  risks : List String
  next_steps : List String
  notes : Option (List String)
  model_used : String
deriving DecidableEq

/-- `heuristic_summarize` from src/main.py: boundary-line extraction with
fixed purpose, risks, next steps and notes, and `model_used = "heuristic"`.
The purpose string reproduces the source bytes exactly, mojibake included. -/
def heuristic_summarize (text : String) : SummaryOut :=
  let lines := pyLines text
  let head := lines.take 3
  let tail := if 3 ≤ lines.length then lines.drop (lines.length - 3) else lines
  let insights :=
    if ((head ++ tail).take 5).isEmpty then ["No salient lines detected."]
    else (head ++ tail).take 5
  { purpose := "Summarize an uploaded document or pasted text into Boomâ€™s standard sections.",
    insights := insights,
    risks := ["Not verified. Heuristic mode."],
    next_steps := ["Provide clearer objectives.", "Flag key metrics to extract.", "Request LLM mode if available."],
    notes := some ["LLM disabled or key missing."],
    model_used := "heuristic" }

/-- Checks that `needle` begins the list `hay` (element-wise equality). -/
def leadsWith : List Char → List Char → Bool
  | [], _ => true
  | _ :: _, [] => false
  | a :: as, b :: bs => a == b && leadsWith as bs

/-- Checks that `needle` occurs contiguously somewhere inside `hay`. -/
def mentions (needle : List Char) : List Char → Bool
  | [] => leadsWith needle []
  | c :: rest => leadsWith needle (c :: rest) || mentions needle rest

/-- Checks that the list ends with the given suffix. -/
def endsWithList (suffix l : List Char) : Bool :=
  leadsWith suffix.reverse l.reverse

/-- The extension test of `read_file_bytes`:
`upload.filename.lower().endswith(".txt")`. -/
def isTxtName (name : String) : Bool :=
  endsWithList ".txt".data (pyLower name).data

/-- Continuation byte test for UTF-8 (`0x80..0xBF`). -/
def isCont (b : Nat) : Bool :=
  decide (0x80 ≤ b ∧ b < 0xC0)

/-- Valid second byte of a three-byte UTF-8 sequence (rejects overlong
encodings after `0xE0` and surrogates after `0xED`). -/
def validSecond3 (b1 b2 : Nat) : Bool :=
  if b1 == 0xE0 then decide (0xA0 ≤ b2 ∧ b2 ≤ 0xBF)
  else if b1 == 0xED then decide (0x80 ≤ b2 ∧ b2 ≤ 0x9F)
  else isCont b2

/-- Valid second byte of a four-byte UTF-8 sequence (rejects overlong
encodings after `0xF0` and out-of-range code points after `0xF4`). -/
def validSecond4 (b1 b2 : Nat) : Bool :=
  if b1 == 0xF0 then decide (0x90 ≤ b2 ∧ b2 ≤ 0xBF)
  else if b1 == 0xF4 then decide (0x80 ≤ b2 ∧ b2 ≤ 0x8F)
  else isCont b2

/-- UTF-8 decoder worker, structurally recursive on a fuel argument: each
step consumes at least one byte, so fuel equal to the byte count suffices.
On each maximal ill-formed subpart the decoder emits `err` and continues. -/
def utf8Go (err : List Char) : Nat → List Nat → List Char
  | _, [] => []
  | 0, _ :: _ => []
  | fuel + 1, b1 :: r1 =>
    if b1 < 0x80 then Char.ofNat b1 :: utf8Go err fuel r1
    else if 0xC2 ≤ b1 ∧ b1 ≤ 0xDF then
      match r1 with
      | [] => err
      | b2 :: r2 =>
        if isCont b2 then
          Char.ofNat ((b1 - 0xC0) * 64 + (b2 - 0x80)) :: utf8Go err fuel r2
        else err ++ utf8Go err fuel r1
    else if 0xE0 ≤ b1 ∧ b1 ≤ 0xEF then
      match r1 with
      | [] => err
      | b2 :: r2 =>
        if validSecond3 b1 b2 then
          match r2 with
          | [] => err
          | b3 :: r3 =>
            if isCont b3 then
              Char.ofNat ((b1 - 0xE0) * 4096 + (b2 - 0x80) * 64 + (b3 - 0x80)) :: utf8Go err fuel r3
            else err ++ utf8Go err fuel r2
        else err ++ utf8Go err fuel r1
    else if 0xF0 ≤ b1 ∧ b1 ≤ 0xF4 then
      match r1 with
      | [] => err
      | b2 :: r2 =>
        if validSecond4 b1 b2 then
          match r2 with
          | [] => err
          | b3 :: r3 =>
            if isCont b3 then
              match r3 with
              | [] => err
              | b4 :: r4 =>
                if isCont b4 then
                  Char.ofNat ((b1 - 0xF0) * 262144 + (b2 - 0x80) * 4096 + (b3 - 0x80) * 64 + (b4 - 0x80)) :: utf8Go err fuel r4
                else err ++ utf8Go err fuel r3
            else err ++ utf8Go err fuel r2
        else err ++ utf8Go err fuel r1
    else err ++ utf8Go err fuel r1

/-- UTF-8 decoder parameterised by the error policy.  `err := []` models
Python `bytes.decode("utf-8", errors="ignore")`; `err := [U+FFFD]` models
`errors="replace"`. -/
def utf8DecodeWith (err : List Char) (l : List Nat) : List Char :=
  utf8Go err l.length l

/-- The decoding performed by the source:
`bytes.decode("utf-8", errors="ignore")` — ill-formed byte sequences are
dropped, never raising. -/
def decodeIgnore (bytes : List Nat) : String :=
  String.mk (utf8DecodeWith [] bytes)

/-- Decoding following the spec's words (`errors="replace"` semantics):
each ill-formed subpart becomes U+FFFD.  Declared only to compare with the
decoding the source actually performs. -/
def decodeReplace (bytes : List Nat) : String :=
  String.mk (utf8DecodeWith [Char.ofNat 0xFFFD] bytes)

/-- An uploaded file: filename plus raw byte content. -/
structure UploadFile where
  filename : String
  content : List Nat
deriving DecidableEq

/-- The error raised by the endpoint (FastAPI `HTTPException`). -/
structure HTTPException where
  status_code : Nat
  detail : String
deriving DecidableEq

/-- `read_file_bytes` from src/main.py: accept only filenames whose
lowercase form ends in `.txt`, decoding bytes as UTF-8 with errors ignored;
any other extension raises HTTP 400. -/
def read_file_bytes (upload : UploadFile) : Except HTTPException String :=
  if isTxtName upload.filename then
    Except.ok (decodeIgnore upload.content)
  else
    Except.error ⟨400, "Only .txt accepted in this minimal build. Use \x27text\x27 field for pasted content."⟩

/-- Python truthiness test used by the input guard on the optional `text`
form field: `None` and the empty string are falsy. -/
def pyFalsyText : Option String → Bool
  | none => true
  | some s => s == ""

/-- Lines 48 to 54 of src/main.py: the input guard plus assembly of the
effective text (`if not text and not file: raise ...; if file: text = await
read_file_bytes(file)`). -/
def resolveInput (text : Option String) (file : Option UploadFile) :
    Except HTTPException String :=
  if pyFalsyText text && file.isNone then
    Except.error ⟨400, "Provide \x27text\x27 or a .txt \x27file\x27."⟩
  else
    match file with
    | some f => read_file_bytes f
    | none => Except.ok (text.getD "")

/-- Failure of the outbound LLM call before any response body exists:
`import httpx` failing, a transport error, the 60-second timeout, a non-2xx
status (`raise_for_status`) or a body `r.json()` cannot parse. -/
inductive FailKind where
  | importError
  | networkError
  | timeout
  | httpStatus (code : Nat)
  | badJson
deriving DecidableEq

/-- Outcome of the outbound call: either the raw `str(data)` of the decoded
response, or a failure. -/
inductive CallOutcome where
  | ok (resp : String)
  | err (kind : FailKind)
deriving DecidableEq

/-- The result of `json.loads` on the extracted span, viewed through the
four `parsed.get(...)` lookups the source performs (a missing or null key
yields `none`). -/
structure ParsedObj where
  purpose : Option String
  insights : Option (List String)
  risks : Option (List String)
  next_steps : Option (List String)
deriving DecidableEq

/-- The prompt built inside `summarize`, with the effective text truncated
to its first 12000 characters. -/
def buildPrompt (summary_type text : String) : String :=
  "Summarize the document into this JSON with short, precise bullets:\n\x7b\n  \"purpose\": \"...\",\n  \"insights\": [\"...\", \"...\"],\n  \"risks\": [\"...\", \"...\"],\n  \"next_steps\": [\"...\", \"...\"]\n\x7d\nConstraints: U.S. English, numbered bullets where useful, no fluff. Summary type: "
    ++ summary_type ++ ".\nDocument:\n" ++ pyTake 12000 text

/-- Model of Python `str.find(c)`: index of the first occurrence. -/
def pyFind (c : Char) (s : String) : Option Nat :=
  List.findIdx? (fun a => a == c) s.data

/-- Model of Python `str.rfind(c)`: index of the last occurrence. -/
def pyRfind (c : Char) (s : String) : Option Nat :=
  match List.findIdx? (fun a => a == c) s.data.reverse with
  | none => none
  | some i => some (s.data.length - 1 - i)

/-- Model of Python `s[start:stop]`. -/
def pySlice (s : String) (start stop : Nat) : String :=
  String.mk ((s.data.drop start).take (stop - start))

/-- The ad hoc span extraction of `summarize`: first opening brace through
last closing brace, or the empty string when either is missing. -/
def extractJsonSpan (txt : String) : String :=
  match pyFind (Char.ofNat 123) txt, pyRfind (Char.ofNat 125) txt with
  | some s, some e => pySlice txt s (e + 1)
  | _, _ => ""

/-- The body of the `try` block of `summarize` once a credential is set:
build the prompt, make the outbound call (oracle `call`), extract the brace
span, parse it (oracle `jp`, modelling `json.loads`), and shape the
response; `none` means some step raised and the `except` clause runs. -/
def llmPath (call : String → CallOutcome) (jp : String → Option ParsedObj)
    (summary_type text : String) : Option SummaryOut :=
  match call (buildPrompt summary_type text) with
  | CallOutcome.err _ => none
  | CallOutcome.ok resp =>
    match jp (extractJsonSpan resp) with
    | none => none
    | some p =>
      some { purpose := p.purpose.getD "",
             insights := p.insights.getD [],
             risks := p.risks.getD [],
             next_steps := p.next_steps.getD [],
             notes := none,
             model_used := "gpt-4o-mini" }

/-- The `summarize` endpoint of src/main.py.  `openai_key_env` is the value
of `os.getenv("OPENAI_API_KEY", "")`; `call` and `jp` are the external-call
and JSON-parse oracles.  Input validation failures surface as
`Except.error`; every failure of the LLM path falls back silently to the
heuristic result for the effective text. -/
def summarize (openai_key_env : String) (call : String → CallOutcome)
    (jp : String → Option ParsedObj) (text : Option String)
    (file : Option UploadFile) (summary_type : String) :
    Except HTTPException SummaryOut :=
  match resolveInput text file with
  | Except.error e => Except.error e
  | Except.ok t =>
    let openai_key := pyStrip openai_key_env
    if openai_key == "" then
      Except.ok (heuristic_summarize t)
    else
      match llmPath call jp summary_type t with
      | some out => Except.ok out
      | none => Except.ok (heuristic_summarize t)

/-- Unfolding equation for the `insights` field of the heuristic result. -/
theorem heuristic_insights_def (t : String) :
    (heuristic_summarize t).insights =
      (if (((pyLines t).take 3 ++ (if 3 ≤ (pyLines t).length then (pyLines t).drop ((pyLines t).length - 3) else pyLines t)).take 5).isEmpty
       then ["No salient lines detected."]
       else ((pyLines t).take 3 ++ (if 3 ≤ (pyLines t).length then (pyLines t).drop ((pyLines t).length - 3) else pyLines t)).take 5) :=
  rfl

/-- The placeholder-substitution step: the result is non-empty and has at
most five entries. -/
theorem placeholder_or_take (m : List String) :
    (if (m.take 5).isEmpty then ["No salient lines detected."] else m.take 5) ≠ [] ∧
    (if (m.take 5).isEmpty then ["No salient lines detected."] else m.take 5).length ≤ 5 := by
  by_cases hm : (m.take 5).isEmpty = true
  · rw [if_pos hm]
    exact ⟨by simp, by simp⟩
  · rw [if_neg hm]
    exact ⟨by simpa using hm, List.length_take_le 5 m⟩

/-- The heuristic result always carries a non-empty `insights` list of at
most five entries. -/
theorem heuristic_insights_len (t : String) :
    (heuristic_summarize t).insights ≠ [] ∧ (heuristic_summarize t).insights.length ≤ 5 := by
  rw [heuristic_insights_def]
  exact placeholder_or_take _

/-- Claim C1: once input validation passes (the resolver yields an effective
text), `summarize` always returns HTTP 200 with a valid result, and whenever
the LLM path fails — for any reason — the heuristic result for the effective
text is returned instead of an error. -/
theorem summarize_absorbs_llm_failures (key : String) (call : String → CallOutcome)
    (jp : String → Option ParsedObj) (text : Option String) (file : Option UploadFile)
    (st t : String) (hres : resolveInput text file = Except.ok t) :
    (llmPath call jp st t = none →
      summarize key call jp text file st = Except.ok (heuristic_summarize t)) ∧
    ∃ r, summarize key call jp text file st = Except.ok r := by
  have hsum : summarize key call jp text file st =
      (if pyStrip key == "" then Except.ok (heuristic_summarize t)
       else
         match llmPath call jp st t with
         | some out => Except.ok out
         | none => Except.ok (heuristic_summarize t)) := by
    unfold summarize
    rw [hres]
  constructor
  · intro hfail
    rw [hsum, hfail]
    split <;> rfl
  · rw [hsum]
    split
    · exact ⟨_, rfl⟩
    · split
      · exact ⟨_, rfl⟩
      · exact ⟨_, rfl⟩

/-- Witness for claim C1: with a timing-out call oracle, the request for
text `"hi"` returns the heuristic result. -/
theorem summarize_absorbs_llm_failures_witness :
    summarize "key" (fun _ => CallOutcome.err FailKind.timeout) (fun _ => none)
        (some "hi") none "executive" = Except.ok (heuristic_summarize "hi") :=
  (summarize_absorbs_llm_failures "key" (fun _ => CallOutcome.err FailKind.timeout)
    (fun _ => none) (some "hi") none "executive" "hi" rfl).1 rfl

/-- Counterexample for claim C2: the code truncates `(head + tail)` to five
entries, so for the seven-line input the returned `insights` has five
entries, not the six the claim lists. -/
theorem summarize_seven_lines_counterexample :
    (summarize "" (fun _ => CallOutcome.err FailKind.networkError) (fun _ => none)
        (some "Line1\nLine2\nLine3\nLine4\nLine5\nLine6\nLine7") none "executive").toOption.map SummaryOut.insights
      = some ["Line1", "Line2", "Line3", "Line5", "Line6"] ∧
    (["Line1", "Line2", "Line3", "Line5", "Line6"] : List String) ≠
      ["Line1", "Line2", "Line3", "Line5", "Line6", "Line7"] :=
  ⟨rfl, by decide⟩

/-- Claim C2 as amended: for the seven-line input with no credential, the
result is the heuristic one with `insights` equal to the first three lines
followed by the last three, truncated to five entries, one fixed risk entry
and `model_used = "heuristic"`. -/
theorem summarize_seven_lines_amended (call : String → CallOutcome)
    (jp : String → Option ParsedObj) :
    summarize "" call jp (some "Line1\nLine2\nLine3\nLine4\nLine5\nLine6\nLine7") none "executive" =
      Except.ok
        { purpose := "Summarize an uploaded document or pasted text into Boomâ€™s standard sections.",
          insights := ["Line1", "Line2", "Line3", "Line5", "Line6"],
          risks := ["Not verified. Heuristic mode."],
          next_steps := ["Provide clearer objectives.", "Flag key metrics to extract.", "Request LLM mode if available."],
          notes := some ["LLM disabled or key missing."],
          model_used := "heuristic" } :=
  rfl

/-- Claim C3: for any non-empty pasted text and an empty-after-stripping
credential, the endpoint returns the heuristic marker and a non-empty
`insights` list of at most five entries. -/
theorem summarize_heuristic_mode (key tx : String) (call : String → CallOutcome)
    (jp : String → Option ParsedObj) (st : String)
    (hkey : pyStrip key = "") (htext : tx ≠ "") :
    ∃ r, summarize key call jp (some tx) none st = Except.ok r ∧
      r.model_used = "heuristic" ∧ r.insights ≠ [] ∧ r.insights.length ≤ 5 := by
  have hres : resolveInput (some tx) none = Except.ok tx := by
    unfold resolveInput
    simp [pyFalsyText, htext]
  refine ⟨heuristic_summarize tx, ?_, rfl, (heuristic_insights_len tx).1,
    (heuristic_insights_len tx).2⟩
  unfold summarize
  rw [hres]
  simp [hkey]

/-- Witness for claim C3 at text `"hello"` with an unset credential. -/
theorem summarize_heuristic_mode_witness :
    ∃ r, summarize "" (fun _ => CallOutcome.err FailKind.timeout) (fun _ => none)
        (some "hello") none "executive" = Except.ok r ∧
      r.model_used = "heuristic" ∧ r.insights ≠ [] ∧ r.insights.length ≤ 5 :=
  summarize_heuristic_mode "" "hello" (fun _ => CallOutcome.err FailKind.timeout)
    (fun _ => none) "executive" rfl (by decide)

/-- Counterexample for claim C4: the source decodes with errors ignored, so
the undecodable byte `0xFF` is dropped, where the claimed replacement
decoding would produce U+FFFD. -/
theorem read_file_bytes_not_replace_counterexample :
    read_file_bytes ⟨"a.txt", [255]⟩ = Except.ok "" ∧
    decodeReplace [255] = "�" ∧ ("" : String) ≠ "�" :=
  ⟨by rfl, by rfl, by decide⟩

/-- Claim C4 as amended: for every accepted `.txt` upload, the bytes are
decoded as UTF-8 with undecodable byte sequences dropped (errors ignored)
rather than raising, so decoding never fails the request. -/
theorem read_file_bytes_never_fails (name : String) (bytes : List Nat)
    (h : isTxtName name = true) :
    read_file_bytes ⟨name, bytes⟩ = Except.ok (decodeIgnore bytes) := by
  unfold read_file_bytes
  simp [h]

/-- Witness for claim C4: a `.txt` upload starting with an invalid byte
still decodes, dropping that byte. -/
theorem read_file_bytes_never_fails_witness :
    read_file_bytes ⟨"notes.txt", [255, 104, 105]⟩ = Except.ok (decodeIgnore [255, 104, 105]) ∧
    decodeIgnore [255, 104, 105] = "hi" :=
  ⟨read_file_bytes_never_fails "notes.txt" [255, 104, 105] rfl, by rfl⟩

/-- Claim C5: a request with neither text nor file fails with HTTP 400, the
message mentioning both the text field and the file, and no summary is
produced. -/
theorem summarize_missing_input_rejected (key : String) (call : String → CallOutcome)
    (jp : String → Option ParsedObj) (st : String) :
    summarize key call jp none none st =
      Except.error ⟨400, "Provide \x27text\x27 or a .txt \x27file\x27."⟩ ∧
    mentions "text".data "Provide \x27text\x27 or a .txt \x27file\x27.".data = true ∧
    mentions "file".data "Provide \x27text\x27 or a .txt \x27file\x27.".data = true :=
  ⟨rfl, rfl, rfl⟩

/-- Claim C6: an uploaded file whose name does not end in `.txt` is rejected
with HTTP 400 and a message mentioning `.txt`, whatever the text field. -/
theorem summarize_non_txt_rejected (key : String) (call : String → CallOutcome)
    (jp : String → Option ParsedObj) (text : Option String) (f : UploadFile) (st : String)
    (h : isTxtName f.filename = false) :
    summarize key call jp text (some f) st =
      Except.error ⟨400, "Only .txt accepted in this minimal build. Use \x27text\x27 field for pasted content."⟩ ∧
    mentions ".txt".data "Only .txt accepted in this minimal build. Use \x27text\x27 field for pasted content.".data = true := by
  constructor
  · have hres : resolveInput text (some f) =
        Except.error ⟨400, "Only .txt accepted in this minimal build. Use \x27text\x27 field for pasted content."⟩ := by
      unfold resolveInput read_file_bytes
      simp [h]
    unfold summarize
    rw [hres]
  · rfl

/-- Witness for claim C6: a `.pdf` upload is rejected even when text is also
supplied. -/
theorem summarize_non_txt_rejected_witness :
    summarize "k" (fun _ => CallOutcome.ok "r") (fun _ => none) (some "body")
        (some ⟨"report.pdf", [1, 2]⟩) "short" =
      Except.error ⟨400, "Only .txt accepted in this minimal build. Use \x27text\x27 field for pasted content."⟩ ∧
    mentions ".txt".data "Only .txt accepted in this minimal build. Use \x27text\x27 field for pasted content.".data = true :=
  summarize_non_txt_rejected "k" (fun _ => CallOutcome.ok "r") (fun _ => none)
    (some "body") ⟨"report.pdf", [1, 2]⟩ "short" rfl

/-- Claim C7: when both a text field and an accepted file are present, the
decoded file content is the effective text and the text field is ignored. -/
theorem summarize_file_precedence (tx : String) (f : UploadFile)
    (h : isTxtName f.filename = true) :
    resolveInput (some tx) (some f) = Except.ok (decodeIgnore f.content) ∧
    ∀ key call jp st, summarize key call jp (some tx) (some f) st =
      summarize key call jp none (some f) st := by
  have hres : ∀ t : Option String, resolveInput t (some f) = Except.ok (decodeIgnore f.content) := by
    intro t
    unfold resolveInput read_file_bytes
    simp [h]
  refine ⟨hres (some tx), ?_⟩
  intro key call jp st
  unfold summarize
  rw [hres (some tx), hres none]

/-- Witness for claim C7: the upload `a.txt` with bytes `"hi"` wins over the
supplied text field. -/
theorem summarize_file_precedence_witness :
    resolveInput (some "ignored") (some ⟨"a.txt", [104, 105]⟩) = Except.ok (decodeIgnore [104, 105]) ∧
    summarize "" (fun _ => CallOutcome.ok "resp") (fun _ => none) (some "ignored")
        (some ⟨"a.txt", [104, 105]⟩) "short" =
      summarize "" (fun _ => CallOutcome.ok "resp") (fun _ => none) none
        (some ⟨"a.txt", [104, 105]⟩) "short" :=
  ⟨(summarize_file_precedence "ignored" ⟨"a.txt", [104, 105]⟩ rfl).1,
   (summarize_file_precedence "ignored" ⟨"a.txt", [104, 105]⟩ rfl).2 ""
     (fun _ => CallOutcome.ok "resp") (fun _ => none) "short"⟩

/-- Claim C8: when every line of the input strips to the empty string, the
heuristic path returns exactly the fixed placeholder insight. -/
theorem heuristic_blank_placeholder (tx : String)
    (h : ∀ ln ∈ splitlines tx, pyStrip ln = "") :
    (heuristic_summarize tx).insights = ["No salient lines detected."] := by
  have hl : pyLines tx = [] := by
    unfold pyLines
    apply List.filterMap_eq_nil_iff.mpr
    intro ln hln
    simp [h ln hln]
  rw [heuristic_insights_def, hl]
  simp

/-- Witness for claim C8 on whitespace-only text. -/
theorem heuristic_blank_placeholder_witness :
    (heuristic_summarize "  \n\t ").insights = ["No salient lines detected."] :=
  heuristic_blank_placeholder "  \n\t " (by decide)

/-- Claim C9: an empty-string text field with no file is rejected exactly
like a missing text field, with the same HTTP 400 error. -/
theorem summarize_empty_text_rejected (key : String) (call : String → CallOutcome)
    (jp : String → Option ParsedObj) (st : String) :
    summarize key call jp (some "") none st =
      Except.error ⟨400, "Provide \x27text\x27 or a .txt \x27file\x27."⟩ ∧
    summarize key call jp (some "") none st = summarize key call jp none none st :=
  ⟨rfl, rfl⟩

/-- Claim C10: with no credential configured (empty after stripping), the
response is independent of the summary-type field: any two values give the
identical result, so no summary type is ever rejected. -/
theorem summarize_ignores_summary_type (key : String) (hkey : pyStrip key = "")
    (call : String → CallOutcome) (jp : String → Option ParsedObj)
    (text : Option String) (file : Option UploadFile) (st1 st2 : String) :
    summarize key call jp text file st1 = summarize key call jp text file st2 := by
  unfold summarize
  cases hres : resolveInput text file
  · rfl
  · simp [hkey]

/-- Witness for claim C10: an arbitrary summary type behaves like the
default one. -/
theorem summarize_ignores_summary_type_witness :
    summarize "" (fun _ => CallOutcome.ok "resp") (fun _ => none) (some "hi") none "weird" =
      summarize "" (fun _ => CallOutcome.ok "resp") (fun _ => none) (some "hi") none "executive" :=
  summarize_ignores_summary_type "" rfl (fun _ => CallOutcome.ok "resp") (fun _ => none)
    (some "hi") none "weird" "executive"

end Boom
